import Mathlib

/-!
# Verification of the weaviate-pt operator tooling

A shallow embedding, in Lean 4, of the pure decision logic of the
weaviate-pt repository: the database helper (`weaviate_client.py`), the
two parallel-search façade services, the backup/restore tools, the
placeholder-credential checks and the query-fixture generator's limit
handling.  Network, filesystem and clock effects are passed in explicitly
as values (response descriptions, timestamps), so every function below is
the source function with its environment made into an argument.

External library boundaries (Python's `gzip`, `json`, `int()`) are
modelled algebraically at their documented contracts: a gzip stream is a
self-identifying lossless wrapper, `json.dumps`/`json.loads` are a
round-tripping codec, and `int()` parses an optional sign followed by
digits.  Byte strings that circulate between the tools are represented by
the `Blob` datatype, whose constructors record which encoder produced the
bytes; this is exactly the information the magic-byte checks of the
decoders dispatch on.

Python string primitives are modelled on `List Char` (with fuel-bounded
structural recursion where needed) so that every definition evaluates
inside the kernel.
-/

/-! ## Python string primitives -/

/-- Does the character list `s` start with the pattern `p`? -/
def startsWithChars : List Char → List Char → Bool
  | _, [] => true
  | [], _ :: _ => false
  | c :: cs, p :: ps => c = p && startsWithChars cs ps

/-- Fuel-bounded worker for `replaceChars`; the fuel is an upper bound on
the number of scanning steps, each of which consumes at least one
character, so `fuel = s.length` never runs out. -/
def replaceCharsAux (pat rep : List Char) : Nat → List Char → List Char
  | _, [] => []
  | 0, s => s
  | Nat.succ fuel, c :: cs =>
    if pat ≠ [] && startsWithChars (c :: cs) pat then
      rep ++ replaceCharsAux pat rep fuel (List.drop (pat.length - 1) cs)
    else
      c :: replaceCharsAux pat rep fuel cs

/-- Python `str.replace(pat, rep)`: left-to-right, non-overlapping
replacement of every occurrence of `pat` by `rep`. -/
def replaceChars (pat rep s : List Char) : List Char :=
  replaceCharsAux pat rep s.length s

/-- Python `str.strip()`: remove leading and trailing whitespace. -/
def pyStrip (s : List Char) : List Char :=
  ((s.dropWhile Char.isWhitespace).reverse.dropWhile Char.isWhitespace).reverse

/-- Worker for `pyDigits`: consume further digits, allowing single
underscores between digits (`1_000`). -/
def pyDigitsAux (acc : Nat) : List Char → Option Nat
  | [] => some acc
  | '_' :: d :: rest =>
    if d.isDigit then pyDigitsAux (acc * 10 + (d.toNat - '0'.toNat)) rest
    else none
  | d :: rest =>
    if d.isDigit then pyDigitsAux (acc * 10 + (d.toNat - '0'.toNat)) rest
    else none

/-- Digit-sequence parser for Python `int()`: one digit, then digits with
single underscores allowed between digits (`1_000`).  `none` on anything
else. -/
def pyDigits : List Char → Option Nat
  | [] => none
  | c :: cs =>
    if c.isDigit then pyDigitsAux (c.toNat - '0'.toNat) cs else none

/-- Python `int(str)`: surrounding whitespace stripped, an optional sign,
then a digit sequence; `none` models the raised `ValueError`. -/
def pyInt (s : List Char) : Option Int :=
  match pyStrip s with
  | '+' :: rest => (pyDigits rest).map Int.ofNat
  | '-' :: rest => (pyDigits rest).map (fun v => -(v : Int))
  | t => (pyDigits t).map Int.ofNat

example : pyInt "8080".toList = some 8080 := by decide
example : pyInt " -5 ".toList = some (-5) := by decide
example : pyInt "abc".toList = none := by decide
example : pyInt "1_000".toList = some 1000 := by decide
example : pyInt "".toList = none := by decide

/-! ## The JSON data model shared by backup and restore -/

/-- A JSON value, restricted to the shapes that occur in backup records:
strings, integers, arrays of numbers (embedding vectors), nested objects
(the `_additional` block) and `null`.  Objects are insertion-ordered
association lists, matching Python `dict`/`json` behaviour. -/
inductive JVal where
  | s (v : String)
  | n (v : Int)
  | vecQ (v : List ℚ)
  | obj (v : List (String × JVal))
  | null

/-- A backed-up record as parsed from JSON: a top-level JSON object. -/
abbrev BackupRec := List (String × JVal)

/-! ## §4.2 Database connection helper — `weaviate_client.py` -/

/-- One entry of the REST batch-insert payload built by
`batch_insert_objects` (`weaviate_client.py:113-118`): the `properties`
dict and the `vector` value are copied verbatim from the caller's object
(the `class` field is the collection name, common to the batch). -/
structure InsertObject where
  properties : List (String × JVal)
  vector : JVal

/-- The parsed JSON body of the `/v1/batch/objects` response, as seen by
the counting loop of `weaviate_client.py:140-145`.  `items xs` is a JSON
list, each element recorded by whether `item["result"]["errors"]` is
present and non-empty; `notAList` is any other JSON document, on which
the `for item in result` / `item.get` code raises and falls into the
outer `except` handler. -/
inductive BatchBody where
  | items (xs : List Bool)
  | notAList

/-- The environment of one `requests.post` call to `/v1/batch/objects`:
either a transport-level exception or an HTTP response with a status code
and a parsed body. -/
inductive BatchResponse where
  | exc
  | http (status : Nat) (body : BatchBody)

/-- `weaviate_client.batch_insert_objects` (lines 92-158), with the HTTP
outcome passed in as a value.  Returns `(success_count, error_count)`:
an empty payload short-circuits to `(0, 0)` before any network call; a
200 response is counted item by item, with a response showing zero
successes and zero errors promoted to full success; a non-200 status or
an exception (transport failure, unusable body) marks the whole batch as
errors. -/
def batch_insert_objects (objects : List InsertObject) (resp : BatchResponse) :
    Nat × Nat :=
  if objects.isEmpty then (0, 0)
  else
    match resp with
    | .exc => (0, objects.length)
    | .http status body =>
      if status = 200 then
        match body with
        | .items xs =>
          -- error_count counts items whose result carries errors,
          -- success_count the rest (lines 140-145)
          if xs.countP (· = false) = 0 ∧ xs.countP (· = true) = 0 then
            (objects.length, 0)
          else (xs.countP (· = false), xs.countP (· = true))
        | .notAList => (0, objects.length)
      else (0, objects.length)

/-- A `/v1/batch/objects` response is shaped per the database wire
contract when, on HTTP 200, its body is a JSON list carrying either one
entry per submitted object or no entries at all (the "ambiguous" empty
response the code promotes to full success).  Non-200 responses,
unusable bodies and transport failures are unconstrained. -/
def BatchResponseShaped (objects : List InsertObject) : BatchResponse → Prop
  | .http 200 (.items xs) => xs.length = objects.length ∨ xs = []
  | _ => True

/-- Result of parsing the configured URL in `create_weaviate_client`
(`weaviate_client.py:27-39`). -/
structure ParsedUrl where
  is_https : Bool
  host : List Char
  port : Int
deriving DecidableEq

/-- The URL-parsing block of `create_weaviate_client`
(`weaviate_client.py:27-39`): protocol prefixes are stripped, the host is
everything before the first `:` (or `/`), the port is `int()` of the text
between the first `:` and the next `/` (defaulting to 443/80 by scheme
when no `:` is present).  `none` models the `ValueError` raised by
`int(port_str)` on a non-numeric port. -/
def parseWeaviateUrl (url : List Char) : Option ParsedUrl :=
  let is_https := startsWithChars url "https://".toList
  let rest := replaceChars "http://".toList []
    (replaceChars "https://".toList [] url)
  if rest.contains ':' then
    let host := rest.takeWhile (· ≠ ':')
    let after := rest.drop (host.length + 1)
    let port_str := after.takeWhile (· ≠ '/')
    match pyInt port_str with
    | some p => some ⟨is_https, host, p⟩
    | none => none
  else
    some ⟨is_https, rest.takeWhile (· ≠ '/'), if is_https then 443 else 80⟩

/-- The connection parameters handed to `weaviate.WeaviateClient` by
`create_weaviate_client` (`weaviate_client.py:52-80`). -/
structure ConnectionParams where
  http_host : List Char
  http_port : Int
  http_secure : Bool
  grpc_host : List Char
  grpc_port : Int
  grpc_secure : Bool
deriving DecidableEq

/-- `weaviate_client.create_weaviate_client` (lines 17-89), reduced to
the connection parameters it constructs.  With the binary-protocol
(gRPC) toggle enabled the secondary port is the fixed 50051
(lines 49-63); with the toggle disabled a dummy secondary port is derived
from the parsed HTTP port as `port + 1 if port < 65535 else port - 1`
(lines 64-80).  `none` models the raised exception when the URL's port
does not parse. -/
def create_weaviate_client (url : List Char) (use_grpc : Bool) :
    Option ConnectionParams :=
  match parseWeaviateUrl url with
  | none => none
  | some u =>
    if use_grpc then
      some ⟨u.host, u.port, u.is_https, u.host, 50051, u.is_https⟩
    else
      let dummy_grpc_port := if u.port < 65535 then u.port + 1 else u.port - 1
      some ⟨u.host, u.port, u.is_https, u.host, dummy_grpc_port, false⟩

/-- The secondary-port derivation as the spec words it: `port+1`, or
`port-1` if `port+1 > 65535`.  (Stated from the spec, for comparison with
the port the code actually attaches.) -/
def specDerivedPort (port : Int) : Int :=
  if port + 1 > 65535 then port - 1 else port + 1

example : parseWeaviateUrl "http://localhost:8080".toList =
    some ⟨false, "localhost".toList, 8080⟩ := by decide

example : parseWeaviateUrl "https://db.example.com/path".toList =
    some ⟨true, "db.example.com".toList, 443⟩ := by decide

example : (create_weaviate_client "http://localhost:8080".toList true).map
    (fun p => p.grpc_port) = some 50051 := by decide

example : (create_weaviate_client "http://localhost:8080".toList false).map
    (fun p => p.grpc_port) = some 8081 := by decide

/-- Any list of response-item markers splits its length between
error-marked and unmarked items. -/
theorem countP_marks_split (xs : List Bool) :
    xs.countP (· = false) + xs.countP (· = true) = xs.length := by
  rw [Nat.add_comm]
  rw [List.length_eq_countP_add_countP (l := xs) (p := (· = true))]
  congr 1
  refine List.countP_congr fun b _ => ?_
  cases b <;> simp

/-- C1: for every list of N objects given to `batch_insert_objects`, and
every outcome of the single REST call (with a 200 body shaped per the
batch wire contract: one response item per object, or the ambiguous empty
list), the returned pair satisfies `success_count + error_count = N`;
moreover a transport exception yields `(0, N)` without raising, a non-200
status yields `(0, N)`, and a 200 response counting zero successes and
zero errors is promoted to full success `(N, 0)`. -/
theorem C1_batch_insert_accounting (objects : List InsertObject)
    (resp : BatchResponse) (hshape : BatchResponseShaped objects resp) :
    (batch_insert_objects objects resp).1 +
        (batch_insert_objects objects resp).2 = objects.length ∧
    (resp = .exc → batch_insert_objects objects resp = (0, objects.length)) ∧
    (∀ status body, resp = .http status body → status ≠ 200 →
      batch_insert_objects objects resp = (0, objects.length)) ∧
    (resp = .http 200 (.items []) →
      batch_insert_objects objects resp = (objects.length, 0)) := by
  by_cases hobj : objects.isEmpty
  · have hlen0 : objects.length = 0 := by
      cases objects with
      | nil => rfl
      | cons a l => cases hobj
    simp [batch_insert_objects, hobj, hlen0]
  · cases resp with
    | exc => simp [batch_insert_objects, hobj]
    | http status body =>
      by_cases hst : status = 200
      · subst hst
        cases body with
        | notAList => simp [batch_insert_objects, hobj]
        | items xs =>
          simp only [BatchResponseShaped] at hshape
          refine ⟨?_, by simp, ?_, ?_⟩
          · simp only [batch_insert_objects, hobj, Bool.false_eq_true,
              if_false, if_true]
            split
            next hzero => simp
            next hzero =>
              have hxs : xs ≠ [] := by
                rintro rfl
                exact hzero ⟨rfl, rfl⟩
              have hlen : xs.length = objects.length := by
                rcases hshape with h | h
                · exact h
                · exact absurd h hxs
              rw [← hlen]
              exact countP_marks_split xs
          · intro s b he h200
            injection he with h1 h2
            exact absurd h1.symm h200
          · intro he
            injection he with h1 h2
            injection h2 with h3
            subst h3
            simp [batch_insert_objects, hobj]
      · simp [batch_insert_objects, hobj, hst]

/-- Witness for C1: two objects, a 200 response marking the second item
as errored, gives `(1, 1)`, summing to the batch size 2. -/
theorem C1_batch_insert_accounting_witness :
    (batch_insert_objects [⟨[], .null⟩, ⟨[], .null⟩]
        (.http 200 (.items [false, true]))).1 +
      (batch_insert_objects [⟨[], .null⟩, ⟨[], .null⟩]
        (.http 200 (.items [false, true]))).2 = 2 :=
  (C1_batch_insert_accounting [⟨[], .null⟩, ⟨[], .null⟩]
    (.http 200 (.items [false, true])) (Or.inl rfl)).1

/-- C3 fails on the code: with the binary-protocol (gRPC) toggle
*enabled* and the configured URL `http://localhost:8080`, the connection
is built with the fixed secondary port 50051, not the derived
`port+1 = 8081` the claim requires (the derivation only happens in the
toggle-disabled branch). -/
theorem C3_counterexample :
    (create_weaviate_client "http://localhost:8080".toList true).map
        (fun p => p.grpc_port) = some 50051 ∧
      specDerivedPort 8080 = 8081 ∧ (50051 : Int) ≠ 8081 := by
  decide

/-- C3 (amended): for every configured URL that parses, the secondary
(gRPC) port attached to the connection is the fixed 50051 when the
binary-protocol toggle is enabled, and the derived port (`port+1`, or
`port-1` if `port+1 > 65535`, computed from the parsed HTTP port) when
the toggle is disabled. -/
theorem C3_grpc_port_amended (url : List Char) (use_grpc : Bool)
    (p : ConnectionParams)
    (h : create_weaviate_client url use_grpc = some p) :
    p.grpc_port = if use_grpc then 50051 else specDerivedPort p.http_port := by
  unfold create_weaviate_client at h
  cases hu : parseWeaviateUrl url with
  | none => rw [hu] at h; cases h
  | some u =>
    rw [hu] at h
    cases use_grpc with
    | true =>
      simp only [if_true] at h
      cases h
      rfl
    | false =>
      simp only [Bool.false_eq_true, if_false] at h
      cases h
      simp only [specDerivedPort]
      by_cases hp : u.port < 65535
      · have : ¬ (u.port + 1 > 65535) := by omega
        simp [hp, this]
      · have : u.port + 1 > 65535 := by omega
        simp [hp, this]

/-- Witness for C3 (amended): with the toggle disabled and URL
`http://localhost:8080`, the attached secondary port is the derived
`8080 + 1`. -/
theorem C3_grpc_port_amended_witness :
    (⟨"localhost".toList, 8080, false, "localhost".toList, 8081,
        false⟩ : ConnectionParams).grpc_port = specDerivedPort 8080 :=
  C3_grpc_port_amended "http://localhost:8080".toList false _ (by decide)

/-! ## §4.11 Fan-out + merge façade — `parallel_search_api.py` -/

/-- Python `round(x, 2)`: rounding to two decimal places.  (Tie-breaking
— half-even in Python, half-up here — is immaterial to the bounds proved
below, which hold for any rounding within half an ulp.) -/
def round2 (q : ℚ) : ℚ := (round (100 * q) : ℤ) / 100

/-- The environment of one fan-out leg inside `send_single_request`
(`parallel_search_api.py:54-105`): an HTTP response with its status and,
for 200, whether the parsed body contains an `errors` key; or a raised
exception (timeouts included), carrying its message. -/
inductive LegOutcome where
  | http (status : Nat) (hasErrors : Bool)
  | exc (msg : String)

/-- The `status` field of a per-collection result dict. -/
inductive LegStatusTag where
  | success
  | error
deriving DecidableEq

/-- The payload part of a per-collection result dict: raw data on
success, the GraphQL error list, the non-200 status, or the exception
text (`parallel_search_api.py:78-105`). -/
inductive LegDetail where
  | data
  | gqlErrors
  | httpStatus (status : Nat)
  | excMsg (msg : String)

/-- One per-collection result dict returned by `send_single_request`. -/
structure LegResult where
  status : LegStatusTag
  collection : String
  search_time_ms : ℚ
  detail : LegDetail

/-- `send_single_request` (`parallel_search_api.py:54-105`): a 200
response without GraphQL errors is a success entry; a 200 response with
errors, a non-200 status, or an exception each produce an error entry.
Every branch returns a dict — no branch raises to the caller. -/
def send_single_request (collection : String) (outcome : LegOutcome)
    (elapsed_ms : ℚ) : LegResult :=
  match outcome with
  | .http status hasErrors =>
    if status = 200 then
      if hasErrors then ⟨.error, collection, elapsed_ms, .gqlErrors⟩
      else ⟨.success, collection, elapsed_ms, .data⟩
    else ⟨.error, collection, elapsed_ms, .httpStatus status⟩
  | .exc msg => ⟨.error, collection, elapsed_ms, .excMsg msg⟩

/-- One incoming query entry together with its leg's environment. -/
structure SearchLeg where
  collection : String
  outcome : LegOutcome
  elapsed_ms : ℚ

/-- The `timing` block of the response (`parallel_search_api.py:140-145`),
each field passed through `round(x, 2)`. -/
structure SearchTiming where
  total_api_time_ms : ℚ
  pure_search_time_ms : ℚ
  max_collection_time_ms : ℚ
  api_overhead_ms : ℚ

/-- The `POST /parallel-search` response envelope
(`parallel_search_api.py:136-147`). -/
structure SearchResponse where
  total_collections : Nat
  successful : Nat
  errors : Nat
  timing : SearchTiming
  results : List LegResult

/-- The `parallel_search` handler (`parallel_search_api.py:32-147`) with
its environment explicit: the list of query entries each paired with its
leg's outcome, and the four wall-clock samples `api_start` (request
receipt), `search_start`/`search_end` (around the concurrent dispatch)
and `api_end` (response construction), in seconds.  Aggregation follows
lines 120-147: per-leg results from `send_single_request`, success/error
entry counts, slowest collection time, `total = (api_end-api_start)*1000`,
`pure = (search_end-search_start)*1000`, `overhead = total - pure`,
each timing field rounded to two decimals. -/
def parallel_search (legs : List SearchLeg)
    (api_start search_start search_end api_end : ℚ) : SearchResponse :=
  let results := legs.map fun l =>
    send_single_request l.collection l.outcome l.elapsed_ms
  let pure_search_time := (search_end - search_start) * 1000
  let successful := (results.filter fun r => r.status = .success).length
  let errors := (results.filter fun r => r.status = .error).length
  let max_search_time := (results.map fun r => r.search_time_ms).foldr max 0
  let total_api_time := (api_end - api_start) * 1000
  let api_overhead := total_api_time - pure_search_time
  { total_collections := legs.length
    successful := successful
    errors := errors
    timing := ⟨round2 total_api_time, round2 pure_search_time,
      round2 max_search_time, round2 api_overhead⟩
    results := results }

/-- Success and error entries partition any list of per-collection
results. -/
theorem legResults_partition (rs : List LegResult) :
    (rs.filter fun r => r.status = .success).length +
      (rs.filter fun r => r.status = .error).length = rs.length := by
  induction rs with
  | nil => rfl
  | cons r t ih =>
    cases h : r.status <;>
      simp [List.filter_cons, h, ← ih] <;> omega

/-- C2: a `POST /parallel-search` request carrying 9 query entries always
yields exactly 9 entries in `results` with `successful + errors = 9`,
whatever each leg's outcome; and any leg whose handler raised (timeouts
included) is recorded as an error entry at its position in the body — the
handler never fails the whole call. -/
theorem C2_facade_completeness (legs : List SearchLeg)
    (api_start search_start search_end api_end : ℚ)
    (h9 : legs.length = 9) :
    (parallel_search legs api_start search_start search_end
        api_end).results.length = 9 ∧
    (parallel_search legs api_start search_start search_end
          api_end).successful +
        (parallel_search legs api_start search_start search_end
          api_end).errors = 9 ∧
    (∀ i (hi : i < legs.length) (msg : String),
      (legs.get ⟨i, hi⟩).outcome = .exc msg →
        ((parallel_search legs api_start search_start search_end
            api_end).results.get
          ⟨i, by simpa [parallel_search] using hi⟩).status = .error) := by
  refine ⟨?_, ?_, ?_⟩
  · simp [parallel_search, h9]
  · show (List.filter _ _).length + (List.filter _ _).length = 9
    rw [legResults_partition]
    simpa [parallel_search] using h9
  · intro i hi msg hexc
    show (List.get (legs.map fun l =>
      send_single_request l.collection l.outcome l.elapsed_ms) _).status = _
    rw [List.get_map]
    rw [hexc]
    rfl

/-- The nine concrete legs used to witness C2: one success, one
GraphQL-error leg, one non-200 leg, one timeout exception, five more
successes. -/
def c2WitnessLegs : List SearchLeg :=
  [⟨"SongLyrics", .http 200 false, 1⟩,
   ⟨"SongLyrics_400k", .http 200 true, 2⟩,
   ⟨"SongLyrics_200k", .http 500 false, 3⟩,
   ⟨"SongLyrics_50k", .exc "Timeout", 4⟩,
   ⟨"SongLyrics_30k", .http 200 false, 5⟩,
   ⟨"SongLyrics_20k", .http 200 false, 6⟩,
   ⟨"SongLyrics_15k", .http 200 false, 7⟩,
   ⟨"SongLyrics_12k", .http 200 false, 8⟩,
   ⟨"SongLyrics_10k", .http 200 false, 9⟩]

/-- Witness for C2: on the nine concrete legs the façade returns 9
results and `successful + errors = 9`. -/
theorem C2_facade_completeness_witness :
    (parallel_search c2WitnessLegs 0 0 0 0).results.length = 9 ∧
    (parallel_search c2WitnessLegs 0 0 0 0).successful +
      (parallel_search c2WitnessLegs 0 0 0 0).errors = 9 :=
  ⟨(C2_facade_completeness c2WitnessLegs 0 0 0 0 rfl).1,
   (C2_facade_completeness c2WitnessLegs 0 0 0 0 rfl).2.1⟩

/-- Two-decimal rounding is monotone. -/
theorem round2_mono {a b : ℚ} (h : a ≤ b) : round2 a ≤ round2 b := by
  unfold round2
  have : round (100 * a) ≤ round (100 * b) := by
    rw [round_eq, round_eq]
    exact Int.floor_le_floor (by linarith)
  exact div_le_div_of_nonneg_right (by exact_mod_cast this) (by norm_num)

/-- Two-decimal rounding moves a value by at most half an ulp. -/
theorem abs_round2_sub (q : ℚ) : |round2 q - q| ≤ 1 / 200 := by
  unfold round2
  have h := abs_sub_round (100 * q)
  have h2 : |((round (100 * q) : ℤ) : ℚ) - 100 * q| ≤ 1 / 2 := by
    rw [abs_sub_comm] at h
    exact h
  have h3 : ((round (100 * q) : ℤ) : ℚ) / 100 - q =
      (((round (100 * q) : ℤ) : ℚ) - 100 * q) / 100 := by ring
  rw [h3, abs_div]
  rw [abs_of_pos (show (0:ℚ) < 100 by norm_num)]
  linarith

/-- The rounded reported values are integer multiples of `1/100`; the
difference `round2 a - (round2 b - round2 c)` is therefore `K/100` for an
integer `K`. -/
theorem round2_combination (a b c : ℚ) :
    round2 a - (round2 b - round2 c) =
      ((round (100 * a) - round (100 * b) + round (100 * c) : ℤ) : ℚ) / 100 := by
  unfold round2
  push_cast
  ring

/-- C8: for every response of the timing-instrumented façade, with the
four clock samples taken in program order (`api_start ≤ search_start ≤
search_end ≤ api_end`), the reported timing satisfies
`pure_search_time_ms ≤ total_api_time_ms`, and `api_overhead_ms` equals
`total_api_time_ms - pure_search_time_ms` to within one unit in the last
(second decimal) place — the rounding applied to the reported values. -/
theorem C8_timing_invariant (legs : List SearchLeg)
    (api_start search_start search_end api_end : ℚ)
    (h1 : api_start ≤ search_start) (h2 : search_start ≤ search_end)
    (h3 : search_end ≤ api_end) :
    (parallel_search legs api_start search_start search_end
          api_end).timing.pure_search_time_ms ≤
      (parallel_search legs api_start search_start search_end
          api_end).timing.total_api_time_ms ∧
    |(parallel_search legs api_start search_start search_end
          api_end).timing.api_overhead_ms -
        ((parallel_search legs api_start search_start search_end
            api_end).timing.total_api_time_ms -
          (parallel_search legs api_start search_start search_end
            api_end).timing.pure_search_time_ms)| ≤ 1 / 100 := by
  have htime : (parallel_search legs api_start search_start search_end
      api_end).timing =
      ⟨round2 ((api_end - api_start) * 1000),
       round2 ((search_end - search_start) * 1000),
       round2 (((legs.map fun l =>
         send_single_request l.collection l.outcome l.elapsed_ms).map
           fun r => r.search_time_ms).foldr max 0),
       round2 ((api_end - api_start) * 1000 -
         (search_end - search_start) * 1000)⟩ := rfl
  rw [htime]
  constructor
  · exact round2_mono (by nlinarith)
  · set tot := (api_end - api_start) * 1000 with htot
    set pure := (search_end - search_start) * 1000 with hpure
    rw [round2_combination (tot - pure) tot pure]
    have ha := abs_round2_sub (tot - pure)
    have hb := abs_round2_sub tot
    have hc := abs_round2_sub pure
    set K : ℤ := round (100 * (tot - pure)) - round (100 * tot) +
      round (100 * pure) with hK
    have hsum : ((K : ℚ)) / 100 =
        (round2 (tot - pure) - (tot - pure)) - (round2 tot - tot) +
          (round2 pure - pure) := by
      rw [hK]
      unfold round2
      push_cast
      ring
    have habs : |((K : ℚ)) / 100| ≤ 3 / 200 := by
      rw [hsum]
      calc |(round2 (tot - pure) - (tot - pure)) - (round2 tot - tot) +
            (round2 pure - pure)|
          ≤ |(round2 (tot - pure) - (tot - pure)) - (round2 tot - tot)| +
            |round2 pure - pure| := abs_add _ _
        _ ≤ |round2 (tot - pure) - (tot - pure)| + |round2 tot - tot| +
            |round2 pure - pure| := by
              have := abs_sub (round2 (tot - pure) - (tot - pure))
                (round2 tot - tot)
              linarith
        _ ≤ 1 / 200 + 1 / 200 + 1 / 200 := by linarith
        _ = 3 / 200 := by norm_num
    have hKQ : |(K : ℚ)| ≤ 3 / 2 := by
      rw [abs_div] at habs
      rw [abs_of_pos (show (0:ℚ) < 100 by norm_num)] at habs
      linarith
    have hKint : |K| ≤ 1 := by
      have : (|K| : ℚ) ≤ 3 / 2 := by
        rw [← Int.cast_abs] at hKQ
        exact_mod_cast hKQ
      by_contra hgt
      push_neg at hgt
      have : (2 : ℚ) ≤ (|K| : ℚ) := by exact_mod_cast hgt
      linarith
    rw [abs_div, abs_of_pos (show (0:ℚ) < 100 by norm_num)]
    rw [← Int.cast_abs]
    have hcast : ((|K| : ℤ) : ℚ) ≤ 1 := by exact_mod_cast hKint
    linarith

/-- Witness for C8: with clock samples 0, 1/10, 3/10, 2/5 seconds the
reported timing satisfies both bounds. -/
theorem C8_timing_invariant_witness :
    (parallel_search [] 0 (1/10) (3/10) (2/5)).timing.pure_search_time_ms ≤
      (parallel_search [] 0 (1/10) (3/10) (2/5)).timing.total_api_time_ms ∧
    |(parallel_search [] 0 (1/10) (3/10) (2/5)).timing.api_overhead_ms -
        ((parallel_search [] 0 (1/10) (3/10) (2/5)).timing.total_api_time_ms -
          (parallel_search [] 0 (1/10) (3/10)
            (2/5)).timing.pure_search_time_ms)| ≤ 1 / 100 :=
  C8_timing_invariant [] 0 (1/10) (3/10) (2/5) (by norm_num) (by norm_num)
    (by norm_num)

/-! ## §4.12 Timing-only façade —
`performance_testing/parallel_testing/fastapi_server.py` -/

/-- One query entry of a `/parallel_query` request (the `QueryRequest`
model, `fastapi_server.py:36-39`). -/
structure QueryRequest where
  collection : String
  graphql : String

/-- The environment of one `graphql_raw_query` call inside
`execute_single_query` (`fastapi_server.py:125-176`): a completed call
whose response carries (or not) a GraphQL error list, an
`asyncio.TimeoutError`, or any other exception with its message. -/
inductive QueryOutcome where
  | ok (hasErrors : Bool)
  | timeout
  | exc (msg : String)

/-- The `QueryResult` response model (`fastapi_server.py:49-55`). -/
structure QueryResult where
  collection : String
  status_code : Nat
  response_time_ms : ℚ
  success : Bool
  error : Option String
deriving DecidableEq

/-- `execute_single_query` (`fastapi_server.py:125-176`): a clean
response is `(200, success, no error)`; a response with GraphQL errors is
`(400, failure, descriptive message)`; a timeout is `(0, failure,
"Timeout after 60s")`; any other exception is `(0, failure, its
message)`. -/
def execute_single_query (q : QueryRequest) (outcome : QueryOutcome)
    (elapsed_ms : ℚ) : QueryResult :=
  match outcome with
  | .ok hasErrors =>
    if hasErrors then
      ⟨q.collection, 400, elapsed_ms, false, some "GraphQL errors"⟩
    else ⟨q.collection, 200, elapsed_ms, true, none⟩
  | .timeout => ⟨q.collection, 0, elapsed_ms, false, some "Timeout after 60s"⟩
  | .exc msg => ⟨q.collection, 0, elapsed_ms, false, some msg⟩

/-- One incoming query together with its leg's environment. -/
structure TimedLeg where
  query : QueryRequest
  outcome : QueryOutcome
  elapsed_ms : ℚ

/-- The `ParallelQueryResponse` model (`fastapi_server.py:58-63`). -/
structure ParallelQueryResponse where
  total_time_ms : ℚ
  successful : Nat
  failed : Nat
  results : List QueryResult

/-- The `parallel_query` handler (`fastapi_server.py:179-208`):
dispatches `execute_single_query` per entry, counts `successful` as the
results with `success = true` and `failed` as
`len(results) - successful`. -/
def parallel_query (legs : List TimedLeg) (total_time_ms : ℚ) :
    ParallelQueryResponse :=
  let results := legs.map fun l =>
    execute_single_query l.query l.outcome l.elapsed_ms
  let successful := (results.filter fun r => r.success).length
  let failed := results.length - successful
  ⟨total_time_ms, successful, failed, results⟩

/-- C10: every `/parallel_query` response has, for each per-collection
result, `success = true` exactly when `status_code = 200`, a status code
drawn from {200, 400, 0}, and aggregate counts with
`successful + failed` equal to the number of queries submitted. -/
theorem C10_timing_facade_invariants (legs : List TimedLeg)
    (total_time_ms : ℚ) :
    (∀ r ∈ (parallel_query legs total_time_ms).results,
      (r.success = true ↔ r.status_code = 200) ∧
        (r.status_code = 200 ∨ r.status_code = 400 ∨ r.status_code = 0)) ∧
    (parallel_query legs total_time_ms).successful +
        (parallel_query legs total_time_ms).failed = legs.length := by
  constructor
  · intro r hr
    simp only [parallel_query, List.mem_map] at hr
    obtain ⟨l, _, rfl⟩ := hr
    cases ho : l.outcome with
    | ok hasErrors =>
      cases hasErrors <;> simp [execute_single_query, ho]
    | timeout => simp [execute_single_query, ho]
    | exc msg => simp [execute_single_query, ho]
  · show (List.filter _ _).length +
      ((List.map _ _).length - (List.filter _ _).length) = _
    have hle : (List.filter (fun r => r.success)
        (legs.map fun l =>
          execute_single_query l.query l.outcome l.elapsed_ms)).length ≤
        (legs.map fun l =>
          execute_single_query l.query l.outcome l.elapsed_ms).length :=
      List.length_filter_le _ _
    simp only [List.length_map] at hle ⊢
    omega

/-! ## §4.5/§4.7 Backup and restore — `backup_to_blob.py`,
`restore_from_blob.py`, `backup_restore/restore_from_blob.py` -/

/-- The byte string of one downloaded backup file, represented by which
encoder produced it: `plainJson records` is the UTF-8 `json.dumps`
serialisation of a record list (as the fallback backup tool writes),
`gzipped inner` is a gzip stream wrapping `inner` (as the streaming
backup tool writes), `invalid` is anything else.  This is the boundary
model of the `gzip`/`json` libraries: gzip streams are self-identifying
(magic bytes) and lossless, and `json.dumps`/`json.loads` round-trip. -/
inductive Blob where
  | plainJson (records : List BackupRec)
  | gzipped (inner : Blob)
  | invalid

/-- Library boundary: `gzip.GzipFile(...).read()`.  Succeeds exactly on
a gzip stream, returning the wrapped bytes; on anything else raises
`BadGzipFile`/`OSError` (missing magic bytes), modelled as `none`. -/
def gzipDecompress : Blob → Option Blob
  | .gzipped inner => some inner
  | _ => none

/-- Library boundary: `json.loads`.  Succeeds exactly on the `json.dumps`
serialisation of a record list; gzip streams and other bytes raise
(`UnicodeDecodeError`/`JSONDecodeError`), modelled as `none`. -/
def jsonLoads : Blob → Option (List BackupRec)
  | .plainJson recs => some recs
  | _ => none

/-- `WeaviateBackup.compress_json_data` (`backup_to_blob.py:118-151`):
serialise the batch compactly with `json.dumps` and wrap it in a gzip
stream (level 6); the `except` branch returning `None` is unreachable for
in-memory record lists. -/
def compress_json_data (data : List BackupRec) : Option Blob :=
  some (.gzipped (.plainJson data))

/-- `WeaviateRestore.download_and_decompress` of the backup-run-aware
variant (`backup_restore/restore_from_blob.py:108-131`): try gzip
decompression first; on a not-gzip signature (`BadGzipFile`/`OSError`)
fall back to parsing the raw bytes as plain JSON; any other failure hits
the outer `except` and yields `[]`. -/
def download_and_decompress (blob : Blob) : List BackupRec :=
  match gzipDecompress blob with
  | some inner =>
    match jsonLoads inner with
    | some objs => objs
    | none => []
  | none =>
    match jsonLoads blob with
    | some objs => objs
    | none => []

/-- `WeaviateRestore.download_and_decompress` of the flat variant
(`restore_from_blob.py:46-66`): gzip decompression then JSON parsing,
with *no* plain-JSON fallback — any failure, including a not-gzip
signature, hits the outer `except` and yields `[]`. -/
def download_and_decompress_flat (blob : Blob) : List BackupRec :=
  match gzipDecompress blob with
  | some inner =>
    match jsonLoads inner with
    | some objs => objs
    | none => []
  | none => []

/-- Python `dict.pop(k, default)` on an insertion-ordered association
list with unique keys: the value at `k` (or `none`) and the dict with the
entry removed. -/
def dictPop (k : String) : List (String × JVal) →
    Option JVal × List (String × JVal)
  | [] => (none, [])
  | (k', v) :: rest =>
    if k' = k then (some v, rest)
    else
      let r := dictPop k rest
      (r.1, (k', v) :: r.2)

/-- Python `dict.get(k, default)` applied to a `JVal`: defined only on
JSON objects (`.get` on any other value raises `AttributeError`,
modelled as `none`). -/
def dictGet (k : String) (dflt : JVal) : JVal → Option JVal
  | .obj kvs => some (((dictPop k kvs).1).getD dflt)
  | _ => none

/-- The per-record re-shaping step shared verbatim by both restore
variants (`backup_restore/restore_from_blob.py:207-214`,
`restore_from_blob.py:98-105`): `additional = obj.pop('_additional', {})`,
`vector = additional.get('vector', [])`, payload
`{"properties": obj, "vector": vector}`.  `none` models the
`AttributeError` raised when `_additional` is present but not an
object. -/
def restore_prepare_object (obj : BackupRec) : Option InsertObject :=
  let p := dictPop "_additional" obj
  let additional : JVal := p.1.getD (.obj [])
  match dictGet "vector" (.vecQ []) additional with
  | some vector => some ⟨p.2, vector⟩
  | none => none

/-- The `objects_to_insert` list a restore variant hands to
`batch_insert_objects` for one file's records. -/
def restore_prepare (objects : List BackupRec) : Option (List InsertObject) :=
  objects.mapM restore_prepare_object

/-- `dictPop` only ever removes entries: every key of the remainder is a
key of the original dict. -/
theorem dictPop_keys_subset (k : String) (obj : List (String × JVal)) :
    ∀ k', k' ∈ (dictPop k obj).2.map Prod.fst → k' ∈ obj.map Prod.fst := by
  induction obj with
  | nil => intro k' h; simp [dictPop] at h
  | cons kv rest ih =>
    intro k' h
    by_cases hk : kv.1 = k
    · simp only [dictPop, hk, if_true] at h
      simp [h]
    · simp only [dictPop, hk, if_false, List.map_cons, List.mem_cons] at h
      rcases h with h | h
      · simp [h]
      · simp [ih k' h]

/-- C4 fails on the code: given non-gzip bytes that are valid plain JSON
holding one record, the flat restore variant's `download_and_decompress`
returns `[]` — the contained record is *not* loaded (no plain-JSON
fallback exists in that variant), while the backup-run-aware variant
does load it. -/
theorem C4_counterexample :
    download_and_decompress_flat (.plainJson [[("title", .s "x")]]) = [] ∧
    download_and_decompress (.plainJson [[("title", .s "x")]]) =
      [[("title", .s "x")]] ∧
    ([] : List BackupRec) ≠ [[("title", .s "x")]] := by
  refine ⟨rfl, rfl, ?_⟩
  intro h
  cases h

/-- C4 (amended): only the backup-run-aware restore variant attempts gzip
decompression first and, on a not-gzip signature, falls back to parsing
the bytes as plain JSON, loading the contained records (without raising);
the flat variant loads gzip-compressed files but, on a not-gzip
signature, skips the file by returning `[]` (also without raising) — so
uncompressed fallback-backup output is restorable only by the
backup-run-aware variant. -/
theorem C4_gzip_fallback_amended (recs : List BackupRec) :
    download_and_decompress (.gzipped (.plainJson recs)) = recs ∧
    download_and_decompress (.plainJson recs) = recs ∧
    download_and_decompress_flat (.gzipped (.plainJson recs)) = recs ∧
    download_and_decompress_flat (.plainJson recs) = [] :=
  ⟨rfl, rfl, rfl, rfl⟩

/-- C5: for every backed-up record whose identifier lives (as the backup
query writes it) inside the `_additional` block rather than among the
top-level keys, the payload each restore variant submits consists only of
`{properties, vector}`: the properties are the record with the metadata
block detached, and the original identifier key appears nowhere among the
inserted properties, so the database assigns a fresh identifier on
insert. -/
theorem C5_new_identifier (obj : BackupRec) (payload : InsertObject)
    (hid : "id" ∉ obj.map Prod.fst)
    (hprep : restore_prepare_object obj = some payload) :
    payload.properties = (dictPop "_additional" obj).2 ∧
    "id" ∉ payload.properties.map Prod.fst ∧
    payload.vector =
      ((dictPop "_additional" obj).1.getD (.obj []) |> dictGet "vector"
        (.vecQ [])).getD (.vecQ []) := by
  simp only [restore_prepare_object] at hprep
  cases hget : dictGet "vector" (.vecQ [])
      ((dictPop "_additional" obj).1.getD (.obj [])) with
  | none => rw [hget] at hprep; cases hprep
  | some vector =>
    rw [hget] at hprep
    cases hprep
    refine ⟨rfl, ?_, rfl⟩
    intro hmem
    exact hid (dictPop_keys_subset "_additional" obj "id" hmem)

/-- Witness for C5: a record with a title property and an `_additional`
block holding the backed-up identifier and vector is re-shaped into a
payload whose properties contain no `id` key. -/
theorem C5_new_identifier_witness :
    (⟨[("title", .s "Song")], .vecQ [1, 2]⟩ : InsertObject).properties =
      (dictPop "_additional"
        [("title", .s "Song"),
         ("_additional", .obj [("id", .s "abc-123"),
           ("vector", .vecQ [1, 2])])]).2 ∧
    "id" ∉ (⟨[("title", .s "Song")], .vecQ [1, 2]⟩ :
      InsertObject).properties.map Prod.fst ∧
    (⟨[("title", .s "Song")], .vecQ [1, 2]⟩ : InsertObject).vector =
      ((dictPop "_additional"
        [("title", .s "Song"),
         ("_additional", .obj [("id", .s "abc-123"),
           ("vector", .vecQ [1, 2])])]).1.getD (.obj []) |> dictGet "vector"
        (.vecQ [])).getD (.vecQ []) :=
  C5_new_identifier
    [("title", .s "Song"),
     ("_additional", .obj [("id", .s "abc-123"), ("vector", .vecQ [1, 2])])]
    ⟨[("title", .s "Song")], .vecQ [1, 2]⟩ (by simp) rfl

/-- C6: for every batch of at most 1,000 well-formed records (unique keys
per record), the streaming backup tool's gzip compression followed by the
restore tool's download-and-decompress parsing returns exactly the
original batch. -/
theorem C6_roundtrip (data : List BackupRec) (hlen : data.length ≤ 1000)
    (hwf : ∀ r ∈ data, (r.map Prod.fst).Nodup) :
    ∃ blob, compress_json_data data = some blob ∧
      download_and_decompress blob = data :=
  ⟨.gzipped (.plainJson data), rfl, rfl⟩

/-- Witness for C6: a two-record batch survives the round trip. -/
theorem C6_roundtrip_witness :
    ∃ blob, compress_json_data
        [[("title", .s "a"), ("_additional", .obj [])],
         [("title", .s "b"), ("_additional", .obj [])]] = some blob ∧
      download_and_decompress blob =
        [[("title", .s "a"), ("_additional", .obj [])],
         [("title", .s "b"), ("_additional", .obj [])]] :=
  C6_roundtrip
    [[("title", .s "a"), ("_additional", .obj [])],
     [("title", .s "b"), ("_additional", .obj [])]]
    (by norm_num)
    (by
      intro r hr
      simp only [List.mem_cons, List.not_mem_nil, or_false] at hr
      rcases hr with rfl | rfl <;> decide)

/-! ## §4.1/§4.14 Placeholder credentials — `config.py`,
`verify_setup.py`, `backup_to_blob.py`,
`backup_restore/restore_from_blob.py` -/

/-- The literal placeholder for the blob-storage connection string
(`backup_to_blob.py:348`, `backup_restore/restore_from_blob.py:249`). -/
def AZURE_BLOB_PLACEHOLDER : String := "your-azure-blob-connection-string-here"

/-- The literal placeholder for the hosted-gateway embedding key
(`config.py:21`). -/
def AZURE_OPENAI_KEY_PLACEHOLDER : String := "your-azure-openai-api-key-here"

/-- The literal placeholder for the direct-provider embedding key
(`config.py:27`). -/
def OPENAI_KEY_PLACEHOLDER : String := "sk-your-openai-api-key-here"

/-- The embedding-provider slice of `config.py` used by
`verify_setup.test_openai`. -/
structure OpenAIConfig where
  use_azure : Bool
  azure_api_key : String
  openai_api_key : String

/-- One network request issued to the embedding provider, with the
credential it carries. -/
structure EmbedProviderCall where
  api_key : String
  is_azure : Bool
deriving DecidableEq

/-- The provider's verdict on the trial request. -/
inductive ProviderEnv where
  | succeeds
  | fails (msg : String)

/-- `verify_setup.test_openai` (lines 11-51): whichever provider mode is
configured, the function constructs a client with the configured key and
immediately issues one network call carrying it (`embeddings.create` in
hosted-gateway mode, `models.list` in direct mode) — there is no
placeholder check — and returns `True`/`False` by whether that call
raised.  The returned pair is (requests issued, result). -/
def test_openai (cfg : OpenAIConfig) (env : ProviderEnv) :
    List EmbedProviderCall × Bool :=
  if cfg.use_azure then
    ([⟨cfg.azure_api_key, true⟩],
      match env with | .succeeds => true | .fails _ => false)
  else
    ([⟨cfg.openai_api_key, false⟩],
      match env with | .succeeds => true | .fails _ => false)

/-- The credential gate of `backup_to_blob.main` (lines 346-352): an
empty or placeholder connection string prints guidance and returns exit
code 1 before any network activity; otherwise the run continues with
whatever requests and exit code the rest of the program produces
(`rest`).  The pair is (requests issued, exit code). -/
def backup_main (connection_string : String) (rest : List String × Int) :
    List String × Int :=
  if connection_string = "" ∨ connection_string = AZURE_BLOB_PLACEHOLDER then
    ([], 1)
  else rest

/-- The identical credential gate of the backup-run-aware restore tool's
`main` (`backup_restore/restore_from_blob.py:247-252`). -/
def restore_main (connection_string : String) (rest : List String × Int) :
    List String × Int :=
  if connection_string = "" ∨ connection_string = AZURE_BLOB_PLACEHOLDER then
    ([], 1)
  else rest

/-- C7 fails on the code: with the hosted-gateway placeholder key
configured (as `config.py` ships), `verify_setup.test_openai` issues a
network request *carrying the placeholder as if it were a real
credential*, and only reports failure after the provider rejects it — it
does not exit before issuing the call. -/
theorem C7_counterexample :
    (test_openai ⟨true, AZURE_OPENAI_KEY_PLACEHOLDER,
        OPENAI_KEY_PLACEHOLDER⟩ (.fails "401 invalid key")).1 =
      [⟨AZURE_OPENAI_KEY_PLACEHOLDER, true⟩] ∧
    (test_openai ⟨true, AZURE_OPENAI_KEY_PLACEHOLDER,
        OPENAI_KEY_PLACEHOLDER⟩ (.fails "401 invalid key")).1 ≠ [] ∧
    (test_openai ⟨true, AZURE_OPENAI_KEY_PLACEHOLDER,
        OPENAI_KEY_PLACEHOLDER⟩ (.fails "401 invalid key")).2 = false := by
  refine ⟨rfl, ?_, rfl⟩
  intro h
  cases h

/-- C7 (amended): the blob-storage placeholder (or an empty string) makes
both the streaming backup tool's and the backup-run-aware restore tool's
entry points exit with code 1 having issued no network call; the
setup-verification tool's embedding check, by contrast, always issues
exactly one trial request carrying the configured key — the placeholder
included — and reports failure (non-zero overall exit) only on the
provider's rejection of that request. -/
theorem C7_placeholder_amended (rest : List String × Int)
    (cfg : OpenAIConfig) (env : ProviderEnv) :
    backup_main AZURE_BLOB_PLACEHOLDER rest = ([], 1) ∧
    restore_main AZURE_BLOB_PLACEHOLDER rest = ([], 1) ∧
    (test_openai cfg env).1 =
      [⟨if cfg.use_azure then cfg.azure_api_key else cfg.openai_api_key,
        cfg.use_azure⟩] ∧
    ((test_openai cfg env).2 = false ↔ ∃ msg, env = .fails msg) := by
  refine ⟨?_, ?_, ?_, ?_⟩
  · simp [backup_main]
  · simp [restore_main]
  · cases hm : cfg.use_azure <;> simp [test_openai, hm]
  · cases hm : cfg.use_azure <;> cases env <;>
      simp [test_openai, hm]

/-! ## §4.9 Fixture-generator limit handling — `generate_test_queries.py` -/

/-- The interactive limit block of `generate_all_query_files`
(`generate_test_queries.py:169-182`): strip the prompt input; nonempty
input is parsed with `int()`, a parse failure or a non-positive value
falls back to 200, and empty input is 200. -/
def resolve_prompt_limit (limit_input : List Char) : Int :=
  let s := pyStrip limit_input
  if s ≠ [] then
    match pyInt s with
    | some v => if v ≤ 0 then 200 else v
    | none => 200
  else 200

/-- The result limit `generate_all_query_files` proceeds with
(`generate_test_queries.py:161-182`): a caller-supplied limit is used
verbatim — the validation block is inside the `result_limit is None`
branch only — and otherwise the interactive prompt decides. -/
def generate_all_query_files_limit (result_limit : Option Int)
    (prompt_input : List Char) : Int :=
  match result_limit with
  | some v => v
  | none => resolve_prompt_limit prompt_input

/-- The `__main__` block (`generate_test_queries.py:336-353`): with a
command-line argument, `int(argv[1])` decides — a `ValueError` prints
usage and exits 1 (`.error 1`) without generating anything; without an
argument the interactive path runs.  `.ok v` is the limit generation
proceeds with. -/
def cli_effective_limit (argv_tail : List (List Char))
    (prompt_input : List Char) : Except Int Int :=
  match argv_tail with
  | [] => .ok (generate_all_query_files_limit none prompt_input)
  | arg :: _ =>
    match pyInt arg with
    | some v => .ok (generate_all_query_files_limit (some v) prompt_input)
    | none => .error 1

/-- The prompt inputs the claim calls invalid: empty (after stripping),
unparsable by `int()`, or parsing to a non-positive value. -/
def PromptLimitInvalid (input : List Char) : Prop :=
  pyStrip input = [] ∨ pyInt (pyStrip input) = none ∨
    ∃ w, pyInt (pyStrip input) = some w ∧ w ≤ 0

/-- C9 fails on the code: on the command line the generator does not
default invalid limits to 200 — the non-positive argument `-5` is used
verbatim as the limit, and the unparsable argument `abc` exits with
status 1 instead of proceeding. -/
theorem C9_counterexample :
    cli_effective_limit ["-5".toList] [] = .ok (-5) ∧ (-5 : Int) ≠ 200 ∧
    cli_effective_limit ["abc".toList] [] = .error 1 := by
  refine ⟨rfl, by decide, rfl⟩

/-- C9 (amended): only at the interactive prompt does an empty,
unparsable or non-positive result limit silently default to 200; a
command-line argument that parses as an integer is used verbatim (even
when non-positive), and an unparsable command-line argument exits with
status 1 without generating. -/
theorem C9_limit_amended (input arg : List Char) (v : Int) :
    (PromptLimitInvalid input →
      generate_all_query_files_limit none input = 200) ∧
    (pyInt arg = some v → cli_effective_limit [arg] input = .ok v) ∧
    (pyInt arg = none → cli_effective_limit [arg] input = .error 1) := by
  refine ⟨?_, ?_, ?_⟩
  · intro hinv
    simp only [generate_all_query_files_limit, resolve_prompt_limit]
    rcases hinv with h | h | ⟨w, hw, hwle⟩
    · simp [h]
    · by_cases hs : pyStrip input = []
      · simp [hs]
      · simp [hs, h]
    · by_cases hs : pyStrip input = []
      · simp [hs]
      · simp [hs, hw, hwle]
  · intro h
    simp [cli_effective_limit, h, generate_all_query_files_limit]
  · intro h
    simp [cli_effective_limit, h]

/-- Witness for C9 (amended): the prompt input `"  -7 "` defaults to 200;
the command-line argument `-5` is used verbatim; the command-line
argument `abc` exits 1. -/
theorem C9_limit_amended_witness :
    generate_all_query_files_limit none "  -7 ".toList = 200 ∧
    cli_effective_limit ["-5".toList] "x".toList = .ok (-5) ∧
    cli_effective_limit ["abc".toList] "x".toList = .error 1 :=
  ⟨(C9_limit_amended "  -7 ".toList "x".toList 0).1
      (Or.inr (Or.inr ⟨-7, by decide, by decide⟩)),
   (C9_limit_amended "x".toList "-5".toList (-5)).2.1 (by decide),
   (C9_limit_amended "x".toList "abc".toList 0).2.2 (by decide)⟩
